import Mathlib

/-!
Shallow embedding of `src/watch-faces/complication/goal_tracker_face.c`
(the goal-tracker watch face: tallies A/B, goals A/B, hold-based
increment/reset, LIS2DW tap gesture classification, prorated monthly
deficit, and the NORMAL / SHOW_GET / SET_A / SET_B display-mode machine).

Machine integers are modelled as `Nat` with explicit `% 2^w` where the C
arithmetic can wrap (`uint8_t` hold/tap counters, the `uint32_t` ms clock
and its unsigned subtractions).  The C `float` arithmetic of
`compute_deficit` is modelled over `ℚ`; for the concrete values claimed in
the spec the float computation is exact (day/dim = 15/30 is a dyadic
rational), and the final non-negativity clamp is value-exact under any
rounding.  Persistence (`watch_store_backup_data` via `backup_write_u16`)
is modelled as an emitted list of slot writes; the backup store read at
setup is a function from slots to the 16-bit values read back.
-/

namespace GoalTracker

/-- `2^32`, the modulus of the C `uint32_t` arithmetic. -/
def U32 : ℕ := 2 ^ 32

/-- `2^8`, the modulus of the C `uint8_t` arithmetic. -/
def U8 : ℕ := 2 ^ 8

/-- C unsigned 32-bit subtraction `a - b` (operands already reduced mod `2^32`). -/
def u32sub (a b : ℕ) : ℕ := (a + U32 - b) % U32

/-- `#define GOAL_A_DEFAULT 12` -/
def GOAL_A_DEFAULT : ℕ := 12

/-- `#define GOAL_B_DEFAULT 4` -/
def GOAL_B_DEFAULT : ℕ := 4

/-- `#define MIN_GOAL 1` -/
def MIN_GOAL : ℕ := 1

/-- `#define MAX_GOAL_A 999` -/
def MAX_GOAL_A : ℕ := 999

/-- `#define MAX_GOAL_B 99` -/
def MAX_GOAL_B : ℕ := 99

/-- `#define HOLD_INC_SECONDS 2` -/
def HOLD_INC_SECONDS : ℕ := 2

/-- `#define HOLD_RESET_SECONDS 5` -/
def HOLD_RESET_SECONDS : ℕ := 5

/-- `#define GET_SHOW_SECONDS 3` -/
def GET_SHOW_SECONDS : ℕ := 3

/-- `#define TRIPLE_TAP_WINDOW_MS 1500` -/
def TRIPLE_TAP_WINDOW_MS : ℕ := 1500

/-- `#define TAP_DEBOUNCE_MS 250` -/
def TAP_DEBOUNCE_MS : ℕ := 250

/-- The literal `0.0001f` threshold used for `deficit > 0.0001f` tests. -/
def EPSILON : ℚ := 1 / 10000

/-- The `mdays` table from `days_in_month`. -/
def mdays : List ℕ := [31, 28, 31, 30, 31, 30, 31, 31, 30, 31, 30, 31]

/-- `static uint8_t days_in_month(uint16_t year, uint8_t month)`:
fixed Gregorian table for non-February months, leap-year rule for February. -/
def days_in_month (year month : ℕ) : ℕ :=
  if month ≠ 2 then mdays.getD (month - 1) 0
  else if (year % 4 = 0 ∧ year % 100 ≠ 0) ∨ year % 400 = 0 then 29 else 28

/-- A calendar date `(year, month, day)` as produced by `get_current_date`;
`none` models `movement_get_local_time` failing (date unavailable). -/
abbrev Date := Option (ℕ × ℕ × ℕ)

/-- `static float compute_deficit(uint16_t goal, uint16_t actual)`:
`expected = goal * (day / days_in_month)`, `deficit = max(0, expected - actual)`;
returns `0` when the date is unavailable.  Float arithmetic modelled over `ℚ`. -/
def compute_deficit (goal actual : ℕ) (date : Date) : ℚ :=
  match date with
  | none => 0
  | some (yr, mo, dy) =>
      let dim := days_in_month yr mo
      let expected : ℚ := (goal : ℚ) * ((dy : ℚ) / (dim : ℚ))
      let deficit : ℚ := expected - (actual : ℚ)
      if deficit < 0 then 0 else deficit

/-- The `face_mode_t` enum. -/
inductive FaceMode
  | normal
  | showGet
  | setA
  | setB
deriving DecidableEq, Repr

/-- `goal_tracker_face_state_t`: all runtime state of the face.
`uint16` tallies/goals, `uint8` hold counters and tap count, `uint32`
millisecond clock and timestamps (kept reduced modulo their width by the
operations that touch them). -/
structure GoalTrackerFaceState where
  tally_a : ℕ
  tally_b : ℕ
  goal_a : ℕ
  goal_b : ℕ
  hold_seconds_a : ℕ
  hold_seconds_b : ℕ
  action_done_during_hold_a : Bool
  action_done_during_hold_b : Bool
  ms_clock : ℕ
  last_tap_ms : ℕ
  tap_count : ℕ
  last_gesture_ms : ℕ
  mode : FaceMode
  get_seconds_remaining : ℕ
deriving DecidableEq, Repr

/-- The four 16-bit backup-SRAM slots (each stored as two bytes in C;
modelled at `backup_read_u16`/`backup_write_u16` granularity). -/
inductive Slot
  | tallyA
  | tallyB
  | goalA
  | goalB
deriving DecidableEq, Repr

/-- One `backup_write_u16` call: which slot, and the 16-bit value stored. -/
structure Write where
  slot : Slot
  value : ℕ
deriving DecidableEq, Repr

/-- `void goal_tracker_face_setup(...)` on a fresh context (`*context_ptr == NULL`):
load tallies and goals from backup SRAM, substitute defaults for out-of-range
goals, clamp tallies, zero all transient fields.  `backup` gives the 16-bit
value read back from each slot. -/
def goal_tracker_face_setup (backup : Slot → ℕ) : GoalTrackerFaceState :=
  let saved_goal_a := backup Slot.goalA
  let saved_goal_b := backup Slot.goalB
  let tally_a0 := backup Slot.tallyA
  let tally_b0 := backup Slot.tallyB
  { tally_a := if tally_a0 > MAX_GOAL_A then MAX_GOAL_A else tally_a0
    tally_b := if tally_b0 > MAX_GOAL_B then MAX_GOAL_B else tally_b0
    goal_a := if saved_goal_a < MIN_GOAL ∨ saved_goal_a > MAX_GOAL_A then GOAL_A_DEFAULT
              else saved_goal_a
    goal_b := if saved_goal_b < MIN_GOAL ∨ saved_goal_b > MAX_GOAL_B then GOAL_B_DEFAULT
              else saved_goal_b
    hold_seconds_a := 0
    hold_seconds_b := 0
    action_done_during_hold_a := false
    action_done_during_hold_b := false
    ms_clock := 0
    last_tap_ms := 0
    tap_count := 0
    last_gesture_ms := 0
    mode := FaceMode.normal
    get_seconds_remaining := 0 }

/-- A high-level gesture confirmed by the tap classifier
(the classifier "emitting" a gesture = the loop calling the matching
`do_*_tap_action` helper). -/
inductive Gesture
  | single
  | double
  | triple
deriving DecidableEq, Repr

/-- Intermediate state threaded through the three tap-handling blocks of
`goal_tracker_face_loop` (lines 393-455): the gestures confirmed so far this
tick plus the `tap_count` / `last_tap_ms` / `last_gesture_ms` fields. -/
structure TapResult where
  gestures : List Gesture
  tap_count : ℕ
  last_tap_ms : ℕ
  last_gesture_ms : ℕ
deriving DecidableEq, Repr

/-- Block 1 of the tap handling: immediate double-tap.  If the DOUBLE_TAP
bit is set and the debounce window has passed, confirm `Double`, stamp
`last_gesture_ms`, and reset the single-tap accumulation. -/
def tap_step1 (dBit : Bool) (now : ℕ) (r : TapResult) : TapResult :=
  if dBit = true ∧ TAP_DEBOUNCE_MS < u32sub now r.last_gesture_ms then
    { gestures := r.gestures ++ [Gesture.double]
      tap_count := 0
      last_tap_ms := 0
      last_gesture_ms := now }
  else r

/-- Block 2 of the tap handling: accumulate SINGLE_TAP reports toward a
triple.  Outside the debounce window the tap count is started, extended
(within `TRIPLE_TAP_WINDOW_MS` of the previous tap, `uint8` wrap) or
restarted; on reaching 3 a `Triple` is confirmed (under the same debounce
re-check the C repeats) and the accumulation is cleared either way. -/
def tap_step2 (sBit : Bool) (now : ℕ) (r : TapResult) : TapResult :=
  if sBit = true ∧ TAP_DEBOUNCE_MS < u32sub now r.last_gesture_ms then
    let tc :=
      if r.tap_count = 0 then 1
      else if u32sub now r.last_tap_ms ≤ TRIPLE_TAP_WINDOW_MS then (r.tap_count + 1) % U8
      else 1
    if 3 ≤ tc then
      if TAP_DEBOUNCE_MS < u32sub now r.last_gesture_ms then
        { gestures := r.gestures ++ [Gesture.triple]
          tap_count := 0
          last_tap_ms := 0
          last_gesture_ms := now }
      else { r with tap_count := 0, last_tap_ms := 0 }
    else { r with tap_count := tc, last_tap_ms := now }
  else r

/-- Block 3 of the tap handling: window timeout.  A pending run whose last
tap is older than `TRIPLE_TAP_WINDOW_MS` is confirmed as `Single` (subject
to debounce); the accumulation is cleared either way. -/
def tap_step3 (now : ℕ) (r : TapResult) : TapResult :=
  if 0 < r.tap_count ∧ TRIPLE_TAP_WINDOW_MS < u32sub now r.last_tap_ms then
    if TAP_DEBOUNCE_MS < u32sub now r.last_gesture_ms then
      { gestures := r.gestures ++ [Gesture.single]
        tap_count := 0
        last_tap_ms := 0
        last_gesture_ms := now }
    else { r with tap_count := 0, last_tap_ms := 0 }
  else r

/-- The whole per-tick tap classification (lines 393-455): blocks 1-3 run
in order on the raw SINGLE_TAP/DOUBLE_TAP bits read from
`lis2dw_get_int_source()` and the current tap-tracking fields. -/
def tap_classifier (sBit dBit : Bool) (now tc0 lt0 lg0 : ℕ) : TapResult :=
  tap_step3 now (tap_step2 sBit now (tap_step1 dBit now
    { gestures := [], tap_count := tc0, last_tap_ms := lt0, last_gesture_ms := lg0 }))

/-- `static void do_single_tap_action(...)`: GET A if A is behind. -/
def do_single_tap_action (date : Date) (st : GoalTrackerFaceState) : GoalTrackerFaceState :=
  if EPSILON < compute_deficit st.goal_a st.tally_a date then
    { st with mode := FaceMode.showGet, get_seconds_remaining := GET_SHOW_SECONDS }
  else st

/-- `static void do_double_tap_action(...)`: GET B if B is behind. -/
def do_double_tap_action (date : Date) (st : GoalTrackerFaceState) : GoalTrackerFaceState :=
  if EPSILON < compute_deficit st.goal_b st.tally_b date then
    { st with mode := FaceMode.showGet, get_seconds_remaining := GET_SHOW_SECONDS }
  else st

/-- `static void do_triple_tap_action(...)`: toggle SET A / SET B. -/
def do_triple_tap_action (st : GoalTrackerFaceState) : GoalTrackerFaceState :=
  if st.mode = FaceMode.setA then { st with mode := FaceMode.setB }
  else { st with mode := FaceMode.setA }

/-- Dispatch one confirmed gesture to its action helper, as the loop does. -/
def apply_gesture (date : Date) (st : GoalTrackerFaceState) (g : Gesture) :
    GoalTrackerFaceState :=
  match g with
  | Gesture.single => do_single_tap_action date st
  | Gesture.double => do_double_tap_action date st
  | Gesture.triple => do_triple_tap_action st

/-- Result of one per-button hold-handling block. -/
structure HoldResult where
  hold : ℕ
  done : Bool
  tally : ℕ
  writes : List Write
deriving DecidableEq, Repr

/-- One button's hold-handling block of the 1 Hz tick (lines 335-356 for
LIGHT/tally A, duplicated verbatim at lines 359-379 for ALARM/tally B,
abstracted here over the tally's max and its backup slot).  While pressed
the `uint8` hold counter advances; with no action fired this hold, reaching
`HOLD_INC_SECONDS` (but not `HOLD_RESET_SECONDS`) increments the tally
(saturating) and reaching `HOLD_RESET_SECONDS` zeroes it, each persisting
via `backup_write_u16`; release clears the counter and the fired-flag. -/
def hold_step (pressed : Bool) (hold0 : ℕ) (done0 : Bool) (tally0 maxv : ℕ)
    (slot : Slot) : HoldResult :=
  if pressed = true then
    let hold := (hold0 + 1) % U8
    if done0 = false then
      if HOLD_INC_SECONDS ≤ hold ∧ hold < HOLD_RESET_SECONDS then
        let tally1 := if tally0 < maxv then tally0 + 1 else tally0
        let tally2 := if maxv < tally1 then maxv else tally1
        { hold := hold, done := true, tally := tally2, writes := [⟨slot, tally2⟩] }
      else if HOLD_RESET_SECONDS ≤ hold then
        { hold := hold, done := true, tally := 0, writes := [⟨slot, 0⟩] }
      else { hold := hold, done := done0, tally := tally0, writes := [] }
    else { hold := hold, done := done0, tally := tally0, writes := [] }
  else { hold := 0, done := false, tally := tally0, writes := [] }

/-- The SHOW_GET countdown block of the 1 Hz tick (lines 457-463): in
SHOW_GET, decrement `get_seconds_remaining` if positive and fall back to
NORMAL when it reaches 0. -/
def countdown_step (st : GoalTrackerFaceState) : GoalTrackerFaceState :=
  if st.mode = FaceMode.showGet then
    let r := if 0 < st.get_seconds_remaining then st.get_seconds_remaining - 1
             else st.get_seconds_remaining
    if r = 0 then { st with get_seconds_remaining := r, mode := FaceMode.normal }
    else { st with get_seconds_remaining := r }
  else st

/-- Per-tick inputs sampled from the collaborators: pressed state of the
LIGHT and ALARM buttons (`movement_is_button_pressed`), the SINGLE_TAP and
DOUBLE_TAP bits of `lis2dw_get_int_source()`, and the calendar date. -/
structure TickEnv where
  pressedA : Bool
  pressedB : Bool
  intSingle : Bool
  intDouble : Bool
  date : Date
deriving DecidableEq, Repr

/-- The `subsecond == 0` body of `EVENT_TICK` (lines 323-464): advance the
ms clock, run both hold-handling blocks, classify taps and apply the
confirmed gestures, then run the SHOW_GET countdown.  Returns the new
state and the backup writes performed.  (The gesture actions touch only
`mode`/`get_seconds_remaining` and the classifier's decisions never read
them, so applying the confirmed gestures after the classifier's field
updates is exactly the C interleaving.) -/
def tick_second (env : TickEnv) (st0 : GoalTrackerFaceState) :
    GoalTrackerFaceState × List Write :=
  let st1 := { st0 with ms_clock := (st0.ms_clock + 1000) % U32 }
  let ha := hold_step env.pressedA st1.hold_seconds_a st1.action_done_during_hold_a
      st1.tally_a MAX_GOAL_A Slot.tallyA
  let hb := hold_step env.pressedB st1.hold_seconds_b st1.action_done_during_hold_b
      st1.tally_b MAX_GOAL_B Slot.tallyB
  let st2 := { st1 with
      hold_seconds_a := ha.hold, action_done_during_hold_a := ha.done, tally_a := ha.tally
      hold_seconds_b := hb.hold, action_done_during_hold_b := hb.done, tally_b := hb.tally }
  let tr := tap_classifier env.intSingle env.intDouble st2.ms_clock
      st2.tap_count st2.last_tap_ms st2.last_gesture_ms
  let st3 := { st2 with
      tap_count := tr.tap_count, last_tap_ms := tr.last_tap_ms
      last_gesture_ms := tr.last_gesture_ms }
  let st4 := tr.gestures.foldl (apply_gesture env.date) st3
  (countdown_step st4, ha.writes ++ hb.writes)

/-- Zero-padded decimal rendering, as `snprintf` with `%03u` / `%02u`. -/
def zeroPad (width n : ℕ) : String :=
  let s := toString n
  String.mk (List.replicate (width - s.length) '0') ++ s

/-- `static void render_top_line(...)`: the string `"A:%03u B:%02u"`. -/
def render_top_line (st : GoalTrackerFaceState) : String :=
  "A:" ++ zeroPad 3 st.tally_a ++ " B:" ++ zeroPad 2 st.tally_b

/-- One display instruction emitted during rendering: a string on the top
row, a deficit (`"%5.2f"`) or a goal value (`"%3u"`/`"%2u"`) on the main
row, or `watch_display_time` with its 12/24-hour flag. -/
inductive RenderInstr
  | topString (s : String)
  | mainDeficit (q : ℚ)
  | mainGoal (n : ℕ)
  | mainTime (clock24h : Bool)
deriving DecidableEq, Repr

/-- The per-tick rendering block of `EVENT_TICK` (lines 466-508), run on
every tick regardless of `subsecond`. -/
def render_tick (clock24h : Bool) (date : Date) (st : GoalTrackerFaceState) :
    List RenderInstr :=
  if st.mode = FaceMode.showGet then
    let def_a := compute_deficit st.goal_a st.tally_a date
    let def_b := compute_deficit st.goal_b st.tally_b date
    if EPSILON < def_a then
      [RenderInstr.topString "GET A", RenderInstr.mainDeficit def_a]
    else if EPSILON < def_b then
      [RenderInstr.topString "GET B", RenderInstr.mainDeficit def_b]
    else
      [RenderInstr.topString (render_top_line st), RenderInstr.mainTime clock24h]
  else if st.mode = FaceMode.setA then
    [RenderInstr.topString "SET A", RenderInstr.mainGoal st.goal_a]
  else if st.mode = FaceMode.setB then
    [RenderInstr.topString "SET B", RenderInstr.mainGoal st.goal_b]
  else
    [RenderInstr.topString (render_top_line st), RenderInstr.mainTime clock24h]

/-- The movement events the face's loop distinguishes (its `switch`):
`EVENT_ACTIVATE`, `EVENT_TICK` with its `subsecond` and the per-tick
collaborator samples, `EVENT_LIGHT_BUTTON_UP`, `EVENT_ALARM_BUTTON_UP`,
`EVENT_MODE_BUTTON_UP`, and every other event type (`default:`). -/
inductive MovementEvent
  | activate
  | tick (subsecond : ℕ) (env : TickEnv)
  | lightButtonUp
  | alarmButtonUp
  | modeButtonUp
  | other
deriving DecidableEq, Repr

/-- What one `goal_tracker_face_loop` call produces: the updated state, the
returned `bool` (false = let the host leave the face), the backup writes,
and the display instructions. -/
structure LoopResult where
  state : GoalTrackerFaceState
  returned : Bool
  writes : List Write
  renders : List RenderInstr
deriving DecidableEq, Repr

/-- `bool goal_tracker_face_loop(movement_event_t event, ...)` with a
non-NULL context.  `clock24h` is `settings->bit.clock_24h`. -/
def goal_tracker_face_loop (clock24h : Bool) (ev : MovementEvent)
    (st : GoalTrackerFaceState) : LoopResult :=
  match ev with
  | MovementEvent.activate =>
      -- reset hold & action flags; keep other state
      ⟨{ st with hold_seconds_a := 0, hold_seconds_b := 0
                 action_done_during_hold_a := false
                 action_done_during_hold_b := false },
       true, [], []⟩
  | MovementEvent.tick subsecond env =>
      let r := if subsecond = 0 then tick_second env st else (st, [])
      ⟨r.1, true, r.2, render_tick clock24h env.date r.1⟩
  | MovementEvent.lightButtonUp =>
      if st.mode = FaceMode.setA then
        let g1 := if st.goal_a < MAX_GOAL_A then st.goal_a + 1 else st.goal_a
        let g2 := if g1 < MIN_GOAL then MIN_GOAL else g1
        let g3 := if MAX_GOAL_A < g2 then MAX_GOAL_A else g2
        ⟨{ st with goal_a := g3 }, true, [⟨Slot.goalA, g3⟩], []⟩
      else if st.mode = FaceMode.setB then
        let g1 := if st.goal_b < MAX_GOAL_B then st.goal_b + 1 else st.goal_b
        let g2 := if g1 < MIN_GOAL then MIN_GOAL else g1
        let g3 := if MAX_GOAL_B < g2 then MAX_GOAL_B else g2
        ⟨{ st with goal_b := g3 }, true, [⟨Slot.goalB, g3⟩], []⟩
      else ⟨st, true, [], []⟩
  | MovementEvent.alarmButtonUp =>
      if st.mode = FaceMode.setA then
        let g1 := if MIN_GOAL < st.goal_a then st.goal_a - 1 else st.goal_a
        ⟨{ st with goal_a := g1 }, true, [⟨Slot.goalA, g1⟩], []⟩
      else if st.mode = FaceMode.setB then
        let g1 := if MIN_GOAL < st.goal_b then st.goal_b - 1 else st.goal_b
        ⟨{ st with goal_b := g1 }, true, [⟨Slot.goalB, g1⟩], []⟩
      else ⟨st, true, [], []⟩
  | MovementEvent.modeButtonUp =>
      if st.mode = FaceMode.setA ∨ st.mode = FaceMode.setB then
        ⟨{ st with mode := FaceMode.normal }, true, [], []⟩
      else ⟨st, false, [], []⟩
  | MovementEvent.other => ⟨st, true, [], []⟩

/-- `void goal_tracker_face_resign(...)`: the body only voids its
arguments — no state change and no backup write. -/
def goal_tracker_face_resign (st : GoalTrackerFaceState) :
    GoalTrackerFaceState × List Write :=
  (st, [])

/-- The data-model invariant of §3 of the spec, instantiated with the
constants the face uses: `tally_a ≤ 999`, `tally_b ≤ 99`,
`1 ≤ goal_a ≤ 999`, `1 ≤ goal_b ≤ 99`. -/
def CountersGoalsInv (st : GoalTrackerFaceState) : Prop :=
  st.tally_a ≤ MAX_GOAL_A ∧ st.tally_b ≤ MAX_GOAL_B ∧
  MIN_GOAL ≤ st.goal_a ∧ st.goal_a ≤ MAX_GOAL_A ∧
  MIN_GOAL ≤ st.goal_b ∧ st.goal_b ≤ MAX_GOAL_B

instance (st : GoalTrackerFaceState) : Decidable (CountersGoalsInv st) := by
  unfold CountersGoalsInv
  exact inferInstance

/-- An uninitialized backup image: every byte reads `0xFF`, so every
16-bit slot reads `0xFFFF` (the out-of-range sentinel of §6 of the spec). -/
def uninitializedBackup : Slot → ℕ := fun _ => 0xFFFF

/-- A backup image with zero tallies and the default goals; the runs and
witnesses below start from the state `goal_tracker_face_setup` loads from it. -/
def zeroBackup : Slot → ℕ :=
  fun s => match s with
  | Slot.tallyA => 0
  | Slot.tallyB => 0
  | Slot.goalA => GOAL_A_DEFAULT
  | Slot.goalB => GOAL_B_DEFAULT

/-- The freshly set-up face state used by the concrete runs below. -/
def initState : GoalTrackerFaceState := goal_tracker_face_setup zeroBackup

/-- Tick inputs for a second during which the LIGHT button is held and
nothing else happens (no taps, date unavailable). -/
def holdATickEnv : TickEnv :=
  { pressedA := true, pressedB := false, intSingle := false, intDouble := false
    date := none }

/-- One 1 Hz tick (`subsecond = 0`) with the LIGHT button held. -/
def holdATick (st : GoalTrackerFaceState) : GoalTrackerFaceState :=
  (goal_tracker_face_loop false (MovementEvent.tick 0 holdATickEnv) st).state

/-- Tick inputs for an idle second (no buttons, no taps, date unavailable). -/
def idleTickEnv : TickEnv :=
  { pressedA := false, pressedB := false, intSingle := false, intDouble := false
    date := none }

/-! ## Helper lemmas -/

theorem u32sub_self (a : ℕ) : u32sub a a = 0 := by
  unfold u32sub
  simp

theorem apply_gesture_counters (d : Date) (st : GoalTrackerFaceState) (g : Gesture) :
    (apply_gesture d st g).tally_a = st.tally_a ∧
    (apply_gesture d st g).tally_b = st.tally_b ∧
    (apply_gesture d st g).goal_a = st.goal_a ∧
    (apply_gesture d st g).goal_b = st.goal_b := by
  cases g <;>
    simp only [apply_gesture, do_single_tap_action, do_double_tap_action,
      do_triple_tap_action] <;>
    split_ifs <;> simp

theorem foldl_apply_gesture_counters (d : Date) (gs : List Gesture)
    (st : GoalTrackerFaceState) :
    (gs.foldl (apply_gesture d) st).tally_a = st.tally_a ∧
    (gs.foldl (apply_gesture d) st).tally_b = st.tally_b ∧
    (gs.foldl (apply_gesture d) st).goal_a = st.goal_a ∧
    (gs.foldl (apply_gesture d) st).goal_b = st.goal_b := by
  induction gs generalizing st with
  | nil => exact ⟨rfl, rfl, rfl, rfl⟩
  | cons g tl ih =>
      simp only [List.foldl_cons]
      obtain ⟨i1, i2, i3, i4⟩ := ih (apply_gesture d st g)
      obtain ⟨a1, a2, a3, a4⟩ := apply_gesture_counters d st g
      exact ⟨i1.trans a1, i2.trans a2, i3.trans a3, i4.trans a4⟩

theorem hold_step_tally_le (pressed : Bool) (h0 : ℕ) (d0 : Bool) (t0 m : ℕ) (s : Slot)
    (ht : t0 ≤ m) : (hold_step pressed h0 d0 t0 m s).tally ≤ m := by
  by_cases hp : pressed = true
  · by_cases hd : d0 = false
    · by_cases hi : HOLD_INC_SECONDS ≤ (h0 + 1) % U8 ∧ (h0 + 1) % U8 < HOLD_RESET_SECONDS
      · simp only [hold_step, hp, hd, if_pos, if_true, hi]
        split_ifs <;> simp <;> omega
      · by_cases hr : HOLD_RESET_SECONDS ≤ (h0 + 1) % U8
        · simp [hold_step, hp, hd, hi, hr]
        · simp [hold_step, hp, hd, hi, hr, ht]
    · simp [hold_step, hp, hd, ht]
  · simp [hold_step, hp, ht]

theorem countdown_counters (st : GoalTrackerFaceState) :
    (countdown_step st).tally_a = st.tally_a ∧
    (countdown_step st).tally_b = st.tally_b ∧
    (countdown_step st).goal_a = st.goal_a ∧
    (countdown_step st).goal_b = st.goal_b := by
  unfold countdown_step
  split_ifs <;> simp <;> split_ifs <;> simp

theorem tick_second_counters (env : TickEnv) (st : GoalTrackerFaceState) :
    (tick_second env st).1.tally_a =
      (hold_step env.pressedA st.hold_seconds_a st.action_done_during_hold_a
        st.tally_a MAX_GOAL_A Slot.tallyA).tally ∧
    (tick_second env st).1.tally_b =
      (hold_step env.pressedB st.hold_seconds_b st.action_done_during_hold_b
        st.tally_b MAX_GOAL_B Slot.tallyB).tally ∧
    (tick_second env st).1.goal_a = st.goal_a ∧
    (tick_second env st).1.goal_b = st.goal_b := by
  refine ⟨?_, ?_, ?_, ?_⟩
  · simp only [tick_second]
    rw [(countdown_counters _).1, (foldl_apply_gesture_counters _ _ _).1]
  · simp only [tick_second]
    rw [(countdown_counters _).2.1, (foldl_apply_gesture_counters _ _ _).2.1]
  · simp only [tick_second]
    rw [(countdown_counters _).2.2.1, (foldl_apply_gesture_counters _ _ _).2.2.1]
  · simp only [tick_second]
    rw [(countdown_counters _).2.2.2, (foldl_apply_gesture_counters _ _ _).2.2.2]

/-! ## Claim theorems -/

/-- C4: on every single 1 Hz tick, for all combinations of the single and
double tap bits and all classifier states (`tap_count`, `last_tap_ms`,
`last_gesture_ms`), the tap classifier confirms at most one of the
`Double`, `Triple`, and timeout-confirmed `Single` gestures. -/
theorem tap_classifier_at_most_one_gesture (s d : Bool) (now tc0 lt0 lg0 : ℕ) :
    (tap_classifier s d now tc0 lt0 lg0).gestures.length ≤ 1 := by
  simp only [tap_classifier, tap_step1, tap_step2, tap_step3]
  split_ifs <;> simp_all [u32sub_self, TAP_DEBOUNCE_MS, TRIPLE_TAP_WINDOW_MS]

/-- C5: the deficit function computes
`max(0, goal * (day_of_month / days_in_month) - actual)`: with a June date
(30-day month) at day 15 it returns exactly `6` for goal 12 / actual 0 and
exactly `0` for goal 12 / actual 10, and it is never negative for any goal,
actual and date. -/
theorem compute_deficit_spec :
    compute_deficit 12 0 (some (2023, 6, 15)) = 6 ∧
    compute_deficit 12 10 (some (2023, 6, 15)) = 0 ∧
    ∀ (goal actual : ℕ) (date : Date), 0 ≤ compute_deficit goal actual date := by
  refine ⟨by norm_num [compute_deficit, days_in_month, mdays],
          by norm_num [compute_deficit, days_in_month, mdays], ?_⟩
  intro goal actual date
  match date with
  | none => simp [compute_deficit]
  | some (yr, mo, dy) =>
      simp only [compute_deficit]
      split_ifs with h
      · exact le_refl 0
      · exact le_of_not_lt h

/-- C6: `days_in_month` returns the fixed Gregorian length for every
non-February month of any year, and for February applies the leap-year
rule (divisible by 4 and (not by 100, or by 400) gives 29, else 28); in
particular 2024 and 2000 are leap Februaries while 2023 and 1900 are not. -/
theorem days_in_month_spec (year : ℕ) :
    days_in_month year 1 = 31 ∧ days_in_month year 3 = 31 ∧
    days_in_month year 4 = 30 ∧ days_in_month year 5 = 31 ∧
    days_in_month year 6 = 30 ∧ days_in_month year 7 = 31 ∧
    days_in_month year 8 = 31 ∧ days_in_month year 9 = 30 ∧
    days_in_month year 10 = 31 ∧ days_in_month year 11 = 30 ∧
    days_in_month year 12 = 31 ∧
    ((year % 4 = 0 ∧ year % 100 ≠ 0) ∨ year % 400 = 0 → days_in_month year 2 = 29) ∧
    (¬ ((year % 4 = 0 ∧ year % 100 ≠ 0) ∨ year % 400 = 0) → days_in_month year 2 = 28) ∧
    days_in_month 2024 2 = 29 ∧ days_in_month 2023 2 = 28 ∧
    days_in_month 2000 2 = 29 ∧ days_in_month 1900 2 = 28 := by
  refine ⟨rfl, rfl, rfl, rfl, rfl, rfl, rfl, rfl, rfl, rfl, rfl, ?_, ?_,
    by decide, by decide, by decide, by decide⟩
  · intro h
    unfold days_in_month
    rw [if_neg (by decide), if_pos h]
  · intro h
    unfold days_in_month
    rw [if_neg (by decide), if_neg h]

/-- C7: whenever the calendar reports the date unavailable, the deficit is
exactly `0` for every goal and actual value, and consequently neither the
single-tap nor the double-tap action enters SHOW_GET (no GET alert). -/
theorem compute_deficit_unavailable :
    (∀ goal actual : ℕ, compute_deficit goal actual none = 0) ∧
    (∀ st : GoalTrackerFaceState, do_single_tap_action none st = st) ∧
    (∀ st : GoalTrackerFaceState, do_double_tap_action none st = st) := by
  refine ⟨fun _ _ => rfl, fun st => ?_, fun st => ?_⟩ <;>
    simp [do_single_tap_action, do_double_tap_action, compute_deficit, EPSILON]

theorem setup_inv (backup : Slot → ℕ) :
    CountersGoalsInv (goal_tracker_face_setup backup) := by
  unfold goal_tracker_face_setup CountersGoalsInv
  refine ⟨?_, ?_, ?_, ?_, ?_, ?_⟩ <;>
    simp only [] <;> split_ifs <;>
    simp_all [MIN_GOAL, MAX_GOAL_A, MAX_GOAL_B, GOAL_A_DEFAULT, GOAL_B_DEFAULT] <;> omega

theorem loop_tick_state (c : Bool) (sub : ℕ) (env : TickEnv)
    (st : GoalTrackerFaceState) :
    (goal_tracker_face_loop c (MovementEvent.tick sub env) st).state =
      if sub = 0 then (tick_second env st).1 else st := by
  by_cases hs : sub = 0 <;> simp [goal_tracker_face_loop, hs]

theorem loop_inv (c : Bool) (ev : MovementEvent) (st : GoalTrackerFaceState)
    (h : CountersGoalsInv st) :
    CountersGoalsInv (goal_tracker_face_loop c ev st).state := by
  obtain ⟨h1, h2, h3, h4, h5, h6⟩ := h
  cases ev with
  | activate => exact ⟨h1, h2, h3, h4, h5, h6⟩
  | tick sub env =>
      rw [loop_tick_state]
      by_cases hs : sub = 0
      · rw [if_pos hs]
        have hc := tick_second_counters env st
        refine ⟨?_, ?_, ?_, ?_, ?_, ?_⟩
        · rw [hc.1]
          exact hold_step_tally_le _ _ _ _ _ _ h1
        · rw [hc.2.1]
          exact hold_step_tally_le _ _ _ _ _ _ h2
        · rw [hc.2.2.1]
          exact h3
        · rw [hc.2.2.1]
          exact h4
        · rw [hc.2.2.2]
          exact h5
        · rw [hc.2.2.2]
          exact h6
      · rw [if_neg hs]
        exact ⟨h1, h2, h3, h4, h5, h6⟩
  | lightButtonUp =>
      simp only [goal_tracker_face_loop, CountersGoalsInv]
      split_ifs <;>
        refine ⟨?_, ?_, ?_, ?_, ?_, ?_⟩ <;>
        simp_all [MIN_GOAL, MAX_GOAL_A, MAX_GOAL_B]
  | alarmButtonUp =>
      simp only [goal_tracker_face_loop, CountersGoalsInv]
      split_ifs <;>
        refine ⟨?_, ?_, ?_, ?_, ?_, ?_⟩ <;>
        simp_all [MIN_GOAL, MAX_GOAL_A, MAX_GOAL_B] <;> omega
  | modeButtonUp =>
      simp only [goal_tracker_face_loop]
      split_ifs <;> exact ⟨h1, h2, h3, h4, h5, h6⟩
  | other => exact ⟨h1, h2, h3, h4, h5, h6⟩

/-- C8: the data-model invariant (`tally_a ≤ 999`, `tally_b ≤ 99`,
`1 ≤ goal_a ≤ 999`, `1 ≤ goal_b ≤ 99`) is established by setup for every
backup image (defaults substituted for out-of-range goals, tallies
clamped) and preserved by every event the loop processes. -/
theorem counters_goals_invariant (backup : Slot → ℕ) (c : Bool) (ev : MovementEvent)
    (st : GoalTrackerFaceState) (h : CountersGoalsInv st) :
    CountersGoalsInv (goal_tracker_face_setup backup) ∧
    CountersGoalsInv (goal_tracker_face_loop c ev st).state :=
  ⟨setup_inv backup, loop_inv c ev st h⟩

/-- Witness for C8: the invariant holds concretely for a fresh state, for
setup on an uninitialized (all-0xFF) backup image, and after a held-button
1 Hz tick processed from the fresh state. -/
theorem counters_goals_invariant_witness :
    CountersGoalsInv initState ∧
    (CountersGoalsInv (goal_tracker_face_setup uninitializedBackup) ∧
     CountersGoalsInv (goal_tracker_face_loop false
       (MovementEvent.tick 0 holdATickEnv) initState).state) :=
  ⟨by decide, counters_goals_invariant uninitializedBackup false
    (MovementEvent.tick 0 holdATickEnv) initState (by decide)⟩

/-- C9: a tick whose `subsecond` is not 0 leaves the whole state record
unchanged and performs no persistence write; it only renders. -/
theorem tick_nonzero_subsecond_render_only (c : Bool) (sub : ℕ) (env : TickEnv)
    (st : GoalTrackerFaceState) (h : sub ≠ 0) :
    (goal_tracker_face_loop c (MovementEvent.tick sub env) st).state = st ∧
    (goal_tracker_face_loop c (MovementEvent.tick sub env) st).writes = [] ∧
    (goal_tracker_face_loop c (MovementEvent.tick sub env) st).renders ≠ [] := by
  refine ⟨?_, ?_, ?_⟩ <;> simp only [goal_tracker_face_loop, if_neg h]
  unfold render_tick
  split_ifs <;> (simp; try split_ifs <;> simp)

/-- Witness for C9: a concrete `subsecond = 1` tick on the fresh state. -/
theorem tick_nonzero_subsecond_render_only_witness :
    (1 : ℕ) ≠ 0 ∧
    ((goal_tracker_face_loop false (MovementEvent.tick 1 idleTickEnv) initState).state
        = initState ∧
     (goal_tracker_face_loop false (MovementEvent.tick 1 idleTickEnv) initState).writes
        = [] ∧
     (goal_tracker_face_loop false (MovementEvent.tick 1 idleTickEnv) initState).renders
        ≠ []) :=
  ⟨by decide,
   tick_nonzero_subsecond_render_only false 1 idleTickEnv initState (by decide)⟩

/-- C1 (the code contradicts it): holding LIGHT for 5 consecutive 1 Hz
ticks from a fresh state leaves `tally_a = 1`, not `0`: the increment
fired at the 2 s threshold sets `action_done_during_hold_a`, which makes
the 5 s reset branch unreachable within the same hold. -/
theorem five_second_hold_tally_not_zero :
    (holdATick^[5] initState).hold_seconds_a = 5 ∧
    (holdATick^[5] initState).tally_a = 1 ∧
    (holdATick^[5] initState).tally_a ≠ 0 := by decide

/-- Counterexample for C2: at deactivation (`goal_tracker_face_resign`) no
slot is written — in particular `tally_A` is not. -/
theorem resign_writes_counterexample :
    ¬ ∃ w ∈ (goal_tracker_face_resign initState).2, w.slot = Slot.tallyA := by
  simp [goal_tracker_face_resign]

/-- C2 (amended): resign performs no persistence write and leaves the
state untouched; durability relies solely on the write-through performed
at each mutation. -/
theorem resign_no_writes (st : GoalTrackerFaceState) :
    goal_tracker_face_resign st = (st, []) := rfl

/-- Counterexample for C3: a face deactivated in SHOW_GET does not resume
at NORMAL — processing `EVENT_ACTIVATE` keeps the stored mode. -/
theorem activate_show_get_counterexample :
    ¬ (goal_tracker_face_loop false MovementEvent.activate
        { initState with mode := FaceMode.showGet }).state.mode = FaceMode.normal := by
  decide

/-- C3 (amended): processing `EVENT_ACTIVATE` preserves the stored display
mode (it resets only the hold counters and action flags); the mode is
NORMAL after activation only because setup initialized it so on a fresh
(power-cycled) context. -/
theorem activate_preserves_mode (c : Bool) (st : GoalTrackerFaceState)
    (backup : Slot → ℕ) :
    (goal_tracker_face_loop c MovementEvent.activate st).state.mode = st.mode ∧
    (goal_tracker_face_setup backup).mode = FaceMode.normal :=
  ⟨rfl, rfl⟩

/-- C10: a MODE-button (mode-exit) event in SHOW_GET is not consumed — the
loop returns `false` and leaves the state unchanged, exactly as in NORMAL;
only SET_A and SET_B consume it by returning to NORMAL. -/
theorem mode_exit_show_get_not_consumed (c : Bool) (st : GoalTrackerFaceState) :
    (goal_tracker_face_loop c MovementEvent.modeButtonUp
      { st with mode := FaceMode.showGet }).returned = false ∧
    (goal_tracker_face_loop c MovementEvent.modeButtonUp
      { st with mode := FaceMode.showGet }).state = { st with mode := FaceMode.showGet } ∧
    (goal_tracker_face_loop c MovementEvent.modeButtonUp
      { st with mode := FaceMode.normal }).returned = false ∧
    (goal_tracker_face_loop c MovementEvent.modeButtonUp
      { st with mode := FaceMode.normal }).state = { st with mode := FaceMode.normal } ∧
    (goal_tracker_face_loop c MovementEvent.modeButtonUp
      { st with mode := FaceMode.setA }).returned = true ∧
    (goal_tracker_face_loop c MovementEvent.modeButtonUp
      { st with mode := FaceMode.setA }).state.mode = FaceMode.normal ∧
    (goal_tracker_face_loop c MovementEvent.modeButtonUp
      { st with mode := FaceMode.setB }).returned = true ∧
    (goal_tracker_face_loop c MovementEvent.modeButtonUp
      { st with mode := FaceMode.setB }).state.mode = FaceMode.normal := by
  refine ⟨?_, ?_, ?_, ?_, ?_, ?_, ?_, ?_⟩ <;> simp [goal_tracker_face_loop]

end GoalTracker
